import Mathlib

/-
Verification of the PLIA_SHARED core: a shallow embedding of
`plia_shared/core/security.py` (ACLService: ACL resolution and access check)
and `plia_shared/database/firestore.py` (FirestoreService.query_documents_in:
the batched membership query engine with per-chunk retry).

Modelling conventions:
* The document store is modelled as pure lookup functions (point reads) plus
  an oracle describing the outcome of each chunk scan attempt; timing
  (backoff delays) and network transport are out of scope.
* Python's loosely typed field values are modelled by an inductive type that
  records exactly what the code observes of a value: whether it is None,
  a string (and which), or some other object, of which the code only uses
  its truthiness (`bool(x)`) and its string form (`str(x)`).
* Machine-level exceptions are modelled by an error enumeration mirroring the
  `google.api_core.exceptions` classes the code names.  In that library,
  `ResourceExhausted`, `DeadlineExceeded`, `PermissionDenied` and
  `InvalidArgument` are all subclasses of `GoogleAPIError`; the model records
  this hierarchy in `isGoogleAPIError`.
-/

namespace PliaShared

/-- The store error taxonomy used by `firestore.py`.  `nonAPIError` stands for
any Python exception that is not a `GoogleAPIError` (e.g. a `TypeError`). -/
inductive StoreErr where
  | resourceExhausted
  | deadlineExceeded
  | permissionDenied
  | invalidArgument
  | otherGoogleAPIError
  | nonAPIError
deriving DecidableEq

/-- `isinstance(e, ResourceExhausted)` for the modelled taxonomy. -/
def isResourceExhausted : StoreErr → Bool
  | .resourceExhausted => true
  | _ => false

/-- `isinstance(e, DeadlineExceeded)` for the modelled taxonomy. -/
def isDeadlineExceeded : StoreErr → Bool
  | .deadlineExceeded => true
  | _ => false

/-- `isinstance(e, GoogleAPIError)`: in `google.api_core.exceptions` every
constructor of `StoreErr` except `nonAPIError` is a subclass of
`GoogleAPIError` (`PermissionDenied` and `InvalidArgument` included, via
`GoogleAPICallError`/`ClientError`). -/
def isGoogleAPIError : StoreErr → Bool
  | .nonAPIError => false
  | _ => true

/-- The code's tenacity predicate
`retry_if_exception_type((ResourceExhausted, DeadlineExceeded, GoogleAPIError))`
(firestore.py lines 138-144): retry when the raised exception is an instance
of any of the three listed classes. -/
def retryPredicate (e : StoreErr) : Bool :=
  isResourceExhausted e || isDeadlineExceeded e || isGoogleAPIError e

/-- Outcome of one attempt of the inner `_fetch()` of a chunk: either the
list of documents streamed by the store, or a raised store error. -/
inductive FetchOutcome (α : Type) where
  | ok (docs : List α)
  | err (e : StoreErr)

/-- The tenacity `AsyncRetrying` loop of `fetch_chunk_with_retry`
(firestore.py lines 135-170), with `stop=stop_after_attempt(m)` and
`reraise=True`.  `oracle k` is the outcome of attempt number `k` (attempts
are numbered from 1, as tenacity does).  The loop: run the attempt; on
success return its documents; on an exception that the retry predicate
rejects, re-raise it at once; otherwise, if the attempt number has reached
`m`, stop and re-raise the last attempt's exception (`reraise=True`; the
`except RetryError` branch of the source re-raises
`e.last_attempt.exception()` and is unreachable under `reraise=True` — both
paths surface the last attempt's own exception); otherwise back off and run
the next attempt.  The result also carries the number of attempts actually
made.  `fuel` is a structural-recursion bound; it never runs out when the
loop is entered with `fuel = m` (the loop recurses only while `k < m`). -/
def retryAux {α : Type} (oracle : Nat → FetchOutcome α) (m : Nat) :
    Nat → Nat → Except StoreErr (List α) × Nat
  | k, fuel =>
    match oracle k with
    | .ok docs => (.ok docs, k)
    | .err e =>
      if retryPredicate e then
        if m ≤ k then (.error e, k)
        else
          match fuel with
          | 0 => (.error e, k)
          | fuel' + 1 => retryAux oracle m (k + 1) fuel'
      else (.error e, k)

/-- `fetch_chunk_with_retry` for one chunk: run the retry loop starting at
attempt 1 with at most `maxRetries` total attempts.  Returns the terminal
result together with the number of store attempts made. -/
def fetch_chunk_with_retry {α : Type} (oracle : Nat → FetchOutcome α)
    (maxRetries : Nat) : Except StoreErr (List α) × Nat :=
  retryAux oracle maxRetries 1 maxRetries

/-- The chunking expression of `query_documents_in` (firestore.py line 130):
`chunks = [values[i : i + 10] for i in range(0, len(values), 10)]`.
`range(0, n, 10)` has `ceil(n / 10) = (n + 9) / 10` elements `0, 10, 20, …`,
and the slice `values[i : i + 10]` is `(values.drop i).take 10`. -/
def pyChunks {α : Type} (values : List α) : List (List α) :=
  (List.range ((values.length + 9) / 10)).map
    (fun i => (values.drop (10 * i)).take 10)

/-- `asyncio.gather` over the chunk tasks with `return_exceptions=False`:
if every task succeeded, the list of per-chunk results in chunk order; if
any task raised, the whole gather raises a failing task's exception and no
result list is assembled.  (The real scheduler surfaces the exception of the
first failing task to complete; the model deterministically surfaces the
first failing chunk in index order — every claim below depends only on the
error being some failing chunk's terminal error.)  The final flattening
`[doc for chunk_results in results for doc in chunk_results]` (line 182) is
fused into the success case. -/
def gatherChunks {α : Type} : List (Except StoreErr (List α)) → Except StoreErr (List α)
  | [] => .ok []
  | .ok docs :: rest =>
    match gatherChunks rest with
    | .ok more => .ok (docs ++ more)
    | .error e => .error e
  | .error e :: _ => .error e

/-- Result of a batched call: the returned value (or raised error) together
with the total number of store attempts performed across all chunks. -/
structure BatchResult (α : Type) where
  result : Except StoreErr (List α)
  storeCalls : Nat

/-- `FirestoreService.query_documents_in` (firestore.py lines 108-183).
`oracle i k` is the store's outcome for attempt `k` of the scan of chunk
number `i` (the scan filters on membership of `pyChunks values` at index
`i`).  An empty `values` returns `[]` immediately, before any chunk
machinery (line 127-128).  Otherwise one retrying fetch per chunk runs and
the results are gathered. -/
def query_documents_in {α : Type} (oracle : Nat → Nat → FetchOutcome α)
    (maxRetries : Nat) (values : List String) : BatchResult α :=
  if values.isEmpty then ⟨.ok [], 0⟩
  else
    let chunks := pyChunks values
    let runs := (List.range chunks.length).map
      (fun i => fetch_chunk_with_retry (oracle i) maxRetries)
    ⟨gatherChunks (runs.map Prod.fst), (runs.map Prod.snd).sum⟩

/-- What the code observes of an element of an `org_uuid`/`orgs` collection
(security.py lines 63-76): it is None, or a string, or some other object of
which only the truthiness `bool(item)` and the string form `str(item)` are
inspected.  E.g. the Python value `0` is `pyOther false "0"` and a non-empty
nested list `["x"]` is `pyOther true "[ x ]"`-like. -/
inductive PyItem where
  | pyNone
  | pyStr (s : String)
  | pyOther (truthy : Bool) (strForm : String)
deriving DecidableEq

/-- What the code observes of the raw `org_uuid`/`orgs` field value
(security.py lines 56-81): None, a string, a list/tuple/set of items, or some
other object (truthiness plus string form). -/
inductive PyVal where
  | pyNone
  | pyStr (s : String)
  | pyColl (items : List PyItem)
  | pyOther (truthy : Bool) (strForm : String)
deriving DecidableEq

/-- Python's `str.strip()` with no argument: remove leading and trailing
whitespace.  Modelled directly over the string's character list (whitespace
as `Char.isWhitespace`) so that it evaluates by kernel reduction. -/
def pyStrip (s : String) : String :=
  String.mk (((s.data.dropWhile Char.isWhitespace).reverse.dropWhile
    Char.isWhitespace).reverse)

/-- The `for item in value` loop of `_first_non_empty_to_str`
(security.py lines 64-76): skip None; for a string take `item.strip()` when
non-empty; for any other object, only when it is truthy take
`str(item).strip()` when non-empty; else continue; after the loop, None. -/
def firstNonEmptyItem : List PyItem → Option String
  | [] => none
  | PyItem.pyNone :: rest => firstNonEmptyItem rest
  | PyItem.pyStr s :: rest =>
    if pyStrip s = "" then firstNonEmptyItem rest else some (pyStrip s)
  | PyItem.pyOther truthy r :: rest =>
    if truthy then
      (if pyStrip r = "" then firstNonEmptyItem rest else some (pyStrip r))
    else firstNonEmptyItem rest

/-- `_first_non_empty_to_str` (security.py lines 49-81): normalizes the
loosely typed `org_uuid`/`orgs` field.  None ↦ None; a string ↦ its strip if
non-empty; a list/tuple/set ↦ the loop above; any other value ↦ its
`str(...).strip()` if the value is truthy and the strip non-empty. -/
def _first_non_empty_to_str : PyVal → Option String
  | PyVal.pyNone => none
  | PyVal.pyStr s => if pyStrip s = "" then none else some (pyStrip s)
  | PyVal.pyColl items => firstNonEmptyItem items
  | PyVal.pyOther truthy r =>
    if truthy then (if pyStrip r = "" then none else some (pyStrip r)) else none

/-- A profile document, restricted to the fields `get_profile_with_acl`
reads: `org_uuid`, `orgs` (both loosely typed) and `series_acl`
(`profile.get("series_acl", [])`, a missing field being the empty list). -/
structure ProfileDoc where
  org_uuid : PyVal
  orgs : PyVal
  series_acl : List String
deriving DecidableEq

/-- An organization document, restricted to the field read by the resolver:
`org.get("series_acl", [])`, a missing field being the empty list. -/
structure OrgDoc where
  series_acl : List String
deriving DecidableEq

/-- The document store as seen through point reads
(`FirestoreService.get_document`, which returns the document's dict when it
exists and None otherwise): the `profiles` and `orgs` collections. -/
structure DB where
  profiles : String → Option ProfileDoc
  orgs : String → Option OrgDoc

/-- Python truthiness of the `Optional[str]` variable `org_uuid`: falsy
exactly when it is None or the empty string (`if not org_uuid:` /
`if org_uuid:`, security.py lines 84 and 88). -/
def pyTruthyOptStr : Option String → Bool
  | none => false
  | some s => s ≠ ""

/-- The organization-identifier extraction of `get_profile_with_acl`
(security.py lines 83-85): normalize `profile.get("org_uuid")`; if the
result is falsy, normalize `profile.get("orgs")` instead. -/
def resolvedOrgUuid (p : ProfileDoc) : Option String :=
  let o1 := _first_non_empty_to_str p.org_uuid
  if pyTruthyOptStr o1 then o1 else _first_non_empty_to_str p.orgs

/-- The organization grant list of `get_profile_with_acl` (security.py lines
86-91): start from `[]`; when the extracted identifier is truthy, point-read
`orgs/<id>`; when that document exists take its `series_acl`, else keep `[]`. -/
def resolvedOrgGrants (db : DB) (p : ProfileDoc) : List String :=
  match resolvedOrgUuid p with
  | none => []
  | some u =>
    if u = "" then []
    else
      match db.orgs u with
      | some org => org.series_acl
      | none => []

/-- `ACLService.get_profile_with_acl` (security.py lines 30-100): point-read
the profile (raising `ProfileNotFoundException(profile_uuid)` when absent,
modelled as `Except.error profile_uuid`), extract the organization
identifier, read the organization grants, and return the profile together
with `list(set(org_series_acl + profile_series_acl))`, modelled as
`List.dedup` of the concatenation (Python's `set` fixes no order; every
theorem below uses only the member set).  The trailing
`if not series_acl: series_acl = []` of the source is a no-op. -/
def get_profile_with_acl (db : DB) (profile_uuid : String) :
    Except String (ProfileDoc × List String) :=
  match db.profiles profile_uuid with
  | none => .error profile_uuid
  | some profile =>
    let org_series_acl := resolvedOrgGrants db profile
    let profile_series_acl := profile.series_acl
    let series_acl := (org_series_acl ++ profile_series_acl).dedup
    .ok (profile, series_acl)

/-- `ACLService.validate_serie_access` (security.py lines 102-117): resolve
the profile's ACL (propagating its profile-not-found failure) and return
`serie_uuid in series_acl`. -/
def validate_serie_access (db : DB) (profile_uuid serie_uuid : String) :
    Except String Bool :=
  match get_profile_with_acl db profile_uuid with
  | .error e => .error e
  | .ok pr => .ok (pr.2.contains serie_uuid)

/-- The per-element normalization that the claim's words describe for
collections: take an element's string form (`None` has none and is skipped
as absent), trim it, and accept it when non-empty — with no truthiness
condition on non-string elements.  Used only to state the claim as written,
to be compared with the source's `firstNonEmptyItem`. -/
def claimItemToStr : PyItem → Option String
  | PyItem.pyNone => none
  | PyItem.pyStr s => if pyStrip s = "" then none else some (pyStrip s)
  | PyItem.pyOther _ r => if pyStrip r = "" then none else some (pyStrip r)

/-- The normalization rule as the claim states it: a string ↦ trimmed if
non-empty; a collection ↦ the first element whose trimmed
stringification is non-empty; absent ↦ none (other top-level shapes as in
the source, outside the claim's three cases). -/
def claimFirstNonEmpty : PyVal → Option String
  | PyVal.pyNone => none
  | PyVal.pyStr s => if pyStrip s = "" then none else some (pyStrip s)
  | PyVal.pyColl items => items.findSome? claimItemToStr
  | PyVal.pyOther truthy r =>
    if truthy then (if pyStrip r = "" then none else some (pyStrip r)) else none

/-- The amended per-element rule, matching the source: a non-string element
is considered only when it is truthy; a falsy non-string element (e.g. the
Python values `0` or `False`) is skipped without being stringified, even
when its string form is non-empty. -/
def amendedItemToStr : PyItem → Option String
  | PyItem.pyNone => none
  | PyItem.pyStr s => if pyStrip s = "" then none else some (pyStrip s)
  | PyItem.pyOther truthy r =>
    if truthy then (if pyStrip r = "" then none else some (pyStrip r)) else none

/-- The amended normalization rule: as the claim states it, except that for
a collection the chosen element is the first whose `amendedItemToStr` is
some string. -/
def amendedFirstNonEmpty : PyVal → Option String
  | PyVal.pyNone => none
  | PyVal.pyStr s => if pyStrip s = "" then none else some (pyStrip s)
  | PyVal.pyColl items => items.findSome? amendedItemToStr
  | PyVal.pyOther truthy r =>
    if truthy then (if pyStrip r = "" then none else some (pyStrip r)) else none

/- ------------------------------------------------------------------ -/
/- Concrete fixtures used by witnesses                                 -/
/- ------------------------------------------------------------------ -/

/-- Eleven keys: two chunks of widths 10 and 1. -/
def vals11 : List String :=
  ["a", "b", "c", "d", "e", "f", "g", "h", "i", "j", "k"]

/-- An always-succeeding store: the scan of chunk `i` returns `[i]`. -/
def oracle7 : Nat → Nat → FetchOutcome Nat := fun i _ => FetchOutcome.ok [i]

/-- The per-chunk document lists produced by `oracle7`. -/
def docs7 : Nat → List Nat := fun i => [i]

/-- Attempt errors: ResourceExhausted on attempts 1 and 2, DeadlineExceeded
on attempt 3. -/
def ej : Nat → StoreErr := fun k =>
  if k = 3 then StoreErr.deadlineExceeded else StoreErr.resourceExhausted

/-- A chunk whose attempt `k` always fails with `ej k`. -/
def oj : Nat → FetchOutcome Nat := fun k => FetchOutcome.err (ej k)

/-- A store on which every chunk scan attempt raises InvalidArgument. -/
def oracle3 : Nat → Nat → FetchOutcome Nat :=
  fun _ _ => FetchOutcome.err StoreErr.invalidArgument

/-- Profile whose `org_uuid` is the string "orgA": direct grants s1, s2. -/
def prof1 : ProfileDoc := ⟨PyVal.pyStr "orgA", PyVal.pyNone, ["s1", "s2"]⟩

/-- Organization orgA grants s2 and s3. -/
def orgA : OrgDoc := ⟨["s2", "s3"]⟩

/-- Store holding profile p1 and organization orgA. -/
def db1 : DB :=
  ⟨fun s => if s = "p1" then some prof1 else none,
   fun s => if s = "orgA" then some orgA else none⟩

/-- The access set the resolver computes for p1 on `db1`:
`list(set(["s2", "s3"] + ["s1", "s2"]))` in the model's dedup order. -/
def acl1 : List String := ["s3", "s1", "s2"]

/-- Profile referencing organization "ghost", which no store document backs. -/
def prof2 : ProfileDoc := ⟨PyVal.pyStr "ghost", PyVal.pyNone, ["s5", "s5"]⟩

/-- Store holding profile p2 and no organization documents at all. -/
def db2 : DB := ⟨fun s => if s = "p2" then some prof2 else none, fun _ => none⟩

/-- Profile with `org_uuid = None` and `orgs = []`: no organization at all. -/
def prof3 : ProfileDoc := ⟨PyVal.pyNone, PyVal.pyColl [], ["s9"]⟩

/-- Store holding profile p3 and no organization documents. -/
def db3 : DB := ⟨fun s => if s = "p3" then some prof3 else none, fun _ => none⟩

/-- The Python field value `[0, "orgA"]`: its first element `0` is falsy
(`bool(0) = False`) while its string form `str(0) = "0"` trims to the
non-empty string "0". -/
def cexVal : PyVal :=
  PyVal.pyColl [PyItem.pyOther false "0", PyItem.pyStr "orgA"]

/- ------------------------------------------------------------------ -/
/- Helper lemmas                                                       -/
/- ------------------------------------------------------------------ -/

/-- The element loop never yields the empty string. -/
theorem firstNonEmptyItem_ne_blank :
    ∀ (items : List PyItem) (s : String),
      firstNonEmptyItem items = some s → s ≠ "" := by
  intro items
  induction items with
  | nil => intro s h; simp [firstNonEmptyItem] at h
  | cons x rest ih =>
    intro s h
    cases x with
    | pyNone =>
      simp only [firstNonEmptyItem] at h
      exact ih s h
    | pyStr t =>
      simp only [firstNonEmptyItem] at h
      split at h
      · exact ih s h
      · rename_i ht
        exact (Option.some.inj h) ▸ ht
    | pyOther truthy r =>
      simp only [firstNonEmptyItem] at h
      split at h
      · split at h
        · exact ih s h
        · rename_i ht
          exact (Option.some.inj h) ▸ ht
      · exact ih s h

/-- The normalization never yields the empty string: whatever it returns is
a non-empty trimmed string. -/
theorem first_non_empty_ne_blank (v : PyVal) (s : String)
    (h : _first_non_empty_to_str v = some s) : s ≠ "" := by
  cases v with
  | pyNone => simp [_first_non_empty_to_str] at h
  | pyStr t =>
    simp only [_first_non_empty_to_str] at h
    split at h
    · exact Option.noConfusion h
    · rename_i ht
      exact (Option.some.inj h) ▸ ht
  | pyColl items => exact firstNonEmptyItem_ne_blank items s h
  | pyOther truthy r =>
    simp only [_first_non_empty_to_str] at h
    split at h
    · split at h
      · exact Option.noConfusion h
      · rename_i ht
        exact (Option.some.inj h) ▸ ht
    · exact Option.noConfusion h

/-- The extracted organization identifier, when present, is non-empty. -/
theorem resolvedOrgUuid_ne_blank (p : ProfileDoc) (s : String)
    (h : resolvedOrgUuid p = some s) : s ≠ "" := by
  simp only [resolvedOrgUuid] at h
  split at h
  · exact first_non_empty_ne_blank p.org_uuid s h
  · exact first_non_empty_ne_blank p.orgs s h

theorem pyChunks_nil {α : Type} : pyChunks ([] : List α) = [] := by
  simp [pyChunks]

/-- Unfolding step of the chunking comprehension: a non-empty list's chunks
are its first ten elements followed by the chunks of the rest. -/
theorem pyChunks_cons_eq {α : Type} (values : List α) (h : values ≠ []) :
    pyChunks values = values.take 10 :: pyChunks (values.drop 10) := by
  have hn : 0 < values.length := List.length_pos.mpr h
  have hc : (values.length + 9) / 10 = (((values.drop 10).length) + 9) / 10 + 1 := by
    rw [List.length_drop]; omega
  unfold pyChunks
  rw [hc, List.range_succ_eq_map, List.map_cons, List.map_map]
  congr 1
  refine List.map_congr_left ?_
  intro i hi
  show (values.drop (10 * (i + 1))).take 10 = ((values.drop 10).drop (10 * i)).take 10
  rw [List.drop_drop]
  congr 2
  omega

theorem pyChunks_flatten {α : Type} :
    ∀ (n : Nat) (values : List α), values.length ≤ n →
      (pyChunks values).flatten = values := by
  intro n
  induction n with
  | zero =>
    intro values hv
    have : values = [] := List.eq_nil_of_length_eq_zero (Nat.le_zero.mp hv)
    simp [this, pyChunks_nil]
  | succ n ih =>
    intro values hv
    by_cases h : values = []
    · simp [h, pyChunks_nil]
    · rw [pyChunks_cons_eq values h, List.flatten_cons,
        ih (values.drop 10) (by simp [List.length_drop]; omega)]
      exact List.take_append_drop 10 values

theorem pyChunks_length {α : Type} (values : List α) :
    (pyChunks values).length = (values.length + 9) / 10 := by
  simp [pyChunks]

theorem pyChunks_chunk_le {α : Type} (values : List α) :
    ∀ c ∈ pyChunks values, c.length ≤ 10 := by
  intro c hc
  obtain ⟨i, _, rfl⟩ := List.mem_map.mp hc
  simp [List.length_take]

/-- Gathering a list of successful chunk results concatenates them in order. -/
theorem gatherChunks_map_ok {α : Type} (l : List (List α)) :
    gatherChunks (l.map Except.ok) = Except.ok l.flatten := by
  induction l with
  | nil => rfl
  | cons d t ih => simp [gatherChunks, ih]

/-- Gathering a list containing a failure yields the failure of some element
of the list (the first one in order). -/
theorem gatherChunks_error {α : Type} :
    ∀ (l : List (Except StoreErr (List α))),
      (∃ e, Except.error e ∈ l) →
      ∃ e, Except.error e ∈ l ∧ gatherChunks l = Except.error e := by
  intro l
  induction l with
  | nil => rintro ⟨e, he⟩; simp at he
  | cons x t ih =>
    rintro ⟨e, he⟩
    cases x with
    | error e0 => exact ⟨e0, List.mem_cons_self _ _, rfl⟩
    | ok d =>
      have ht : ∃ e, Except.error e ∈ t := by
        rcases List.mem_cons.mp he with h0 | h1
        · exact absurd h0 (by simp)
        · exact ⟨e, h1⟩
      obtain ⟨e1, he1, hg⟩ := ih ht
      exact ⟨e1, List.mem_cons_of_mem _ he1, by simp [gatherChunks, hg]⟩

/- ------------------------------------------------------------------ -/
/- Claim theorems for the batched query engine                         -/
/- ------------------------------------------------------------------ -/

/-- C9: `query_documents_in` called with an empty values list returns an
empty sequence immediately and performs zero store calls. -/
theorem query_documents_in_empty {α : Type} (oracle : Nat → Nat → FetchOutcome α)
    (maxRetries : Nat) :
    (query_documents_in oracle maxRetries []).result = Except.ok [] ∧
    (query_documents_in oracle maxRetries []).storeCalls = 0 :=
  ⟨rfl, rfl⟩

/-- C7: `query_documents_in` partitions its key list into ordered,
non-overlapping chunks of at most 10 keys — their count is
`ceil(len(values) / 10) = (len(values) + 9) / 10` and their concatenation in
chunk order is the original list — and, when every chunk fetch succeeds,
returns the concatenation of the per-chunk results in chunk order (so,
ignoring order, the union of the per-chunk results). -/
theorem query_documents_in_partition {α : Type}
    (oracle : Nat → Nat → FetchOutcome α) (maxRetries : Nat)
    (values : List String) (docs : Nat → List α)
    (hall : ∀ i < (pyChunks values).length,
      (fetch_chunk_with_retry (oracle i) maxRetries).1 = Except.ok (docs i)) :
    (pyChunks values).length = (values.length + 9) / 10 ∧
    values.length ≤ 10 * (pyChunks values).length ∧
    10 * (pyChunks values).length < values.length + 10 ∧
    (∀ c ∈ pyChunks values, c.length ≤ 10) ∧
    (pyChunks values).flatten = values ∧
    (query_documents_in oracle maxRetries values).result =
      Except.ok (((List.range (pyChunks values).length).map docs).flatten) := by
  have hlen := pyChunks_length values
  have hflat := pyChunks_flatten values.length values (Nat.le_refl _)
  refine ⟨hlen, ?_, ?_, pyChunks_chunk_le values, hflat, ?_⟩
  · omega
  · omega
  · by_cases h : values = []
    · subst h
      simp [query_documents_in, pyChunks_nil]
    · have hne : values.isEmpty = false := by
        simpa [List.isEmpty_iff] using h
      have hmap : (List.range (pyChunks values).length).map
          (fun i => (fetch_chunk_with_retry (oracle i) maxRetries).1) =
          ((List.range (pyChunks values).length).map docs).map Except.ok := by
        rw [List.map_map]
        refine List.map_congr_left ?_
        intro i hi
        exact hall i (List.mem_range.mp hi)
      simp only [query_documents_in, hne, Bool.false_eq_true, if_false,
        List.map_map]
      show gatherChunks _ = _
      calc gatherChunks ((List.range (pyChunks values).length).map
              (Prod.fst ∘ fun i => fetch_chunk_with_retry (oracle i) maxRetries))
          = gatherChunks (((List.range (pyChunks values).length).map docs).map
              Except.ok) := by
            rw [← hmap]; rfl
        _ = _ := by rw [gatherChunks_map_ok]

/-- Exhaustion run of the retry loop: when every attempt up to the budget
fails with a retryable error, the loop makes exactly the budgeted number of
attempts and surfaces the last attempt's own exception. -/
theorem retryAux_exhaust {α : Type} (oracle : Nat → FetchOutcome α) (m : Nat)
    (e : Nat → StoreErr)
    (hfail : ∀ k, 1 ≤ k → k ≤ m → oracle k = FetchOutcome.err (e k))
    (hretry : ∀ k, 1 ≤ k → k ≤ m → retryPredicate (e k) = true) :
    ∀ fuel k, 1 ≤ k → k ≤ m → k + fuel = m + 1 →
      retryAux oracle m k fuel = (Except.error (e m), m) := by
  intro fuel
  induction fuel with
  | zero => intro k h1 hk hinv; omega
  | succ fuel ih =>
    intro k h1 hk hinv
    unfold retryAux
    rw [hfail k h1 hk]
    simp only [hretry k h1 hk, if_true]
    by_cases hstop : m ≤ k
    · have hkm : k = m := Nat.le_antisymm hk hstop
      subst hkm
      simp [hstop]
    · simp only [if_neg hstop]
      exact ih (k + 1) (by omega) (by omega) (by omega)

/- ------------------------------------------------------------------ -/
/- Claim theorems for the per-chunk retry policy                       -/
/- ------------------------------------------------------------------ -/

/-- C8: per chunk, on retryable store errors the same chunk is retried up to
`maxRetries` total attempts, and when attempts are exhausted the chunk fetch
fails with the exception raised by the last attempt itself (tenacity's
`reraise=True`; the model carries no wrapping "retries exhausted" value, and
the surfaced error is exactly attempt `maxRetries`'s exception). -/
theorem fetch_chunk_retry_exhaustion {α : Type} (oracle : Nat → FetchOutcome α)
    (maxRetries : Nat) (e : Nat → StoreErr) (hm : 1 ≤ maxRetries)
    (hfail : ∀ k, 1 ≤ k → k ≤ maxRetries → oracle k = FetchOutcome.err (e k))
    (hretry : ∀ k, 1 ≤ k → k ≤ maxRetries → retryPredicate (e k) = true) :
    fetch_chunk_with_retry oracle maxRetries =
      (Except.error (e maxRetries), maxRetries) :=
  retryAux_exhaust oracle maxRetries e hfail hretry maxRetries 1 (Nat.le_refl 1)
    hm (by omega)

/-- Witness for C8: with a budget of 3 attempts, a chunk that fails with
ResourceExhausted on attempts 1 and 2 and with DeadlineExceeded on attempt 3
makes exactly 3 attempts and surfaces the third attempt's DeadlineExceeded. -/
theorem fetch_chunk_retry_exhaustion_witness :
    fetch_chunk_with_retry oj 3 = (Except.error StoreErr.deadlineExceeded, 3) := by
  have h := fetch_chunk_retry_exhaustion oj 3 ej (by omega)
    (fun k h1 hk => rfl)
    (fun k h1 hk => by
      by_cases h3 : k = 3 <;>
        simp [ej, h3, retryPredicate, isResourceExhausted, isDeadlineExceeded,
          isGoogleAPIError])
  exact h

/-- C2 evaluation: the retry predicate of the source,
`retry_if_exception_type((ResourceExhausted, DeadlineExceeded, GoogleAPIError))`,
matches `PermissionDenied` and `InvalidArgument` as well (they are
`GoogleAPIError` subclasses), so a chunk whose every attempt raises the
fatal `PermissionDenied` is retried like a transient failure: with
`max_retries = 3` the code makes 3 attempts, not 1, before failing. -/
theorem permission_denied_is_retried :
    fetch_chunk_with_retry
        (fun _ => FetchOutcome.err StoreErr.permissionDenied : Nat → FetchOutcome Nat)
        3 = (Except.error StoreErr.permissionDenied, 3) ∧
    retryPredicate StoreErr.permissionDenied = true ∧
    retryPredicate StoreErr.invalidArgument = true ∧
    isGoogleAPIError StoreErr.permissionDenied = true :=
  ⟨rfl, rfl, rfl, rfl⟩

/-- C3: if any chunk of a batched call ultimately fails, the whole call
fails with a failing chunk's terminal error and yields no documents — never
a partial result assembled from the chunks that succeeded. -/
theorem query_documents_in_total_failure {α : Type}
    (oracle : Nat → Nat → FetchOutcome α) (maxRetries : Nat)
    (values : List String)
    (hfail : ∃ i < (pyChunks values).length, ∃ e : StoreErr,
      (fetch_chunk_with_retry (oracle i) maxRetries).1 = Except.error e) :
    ∃ j < (pyChunks values).length, ∃ e : StoreErr,
      (fetch_chunk_with_retry (oracle j) maxRetries).1 = Except.error e ∧
      (query_documents_in oracle maxRetries values).result = Except.error e ∧
      ∀ docs : List α,
        (query_documents_in oracle maxRetries values).result ≠ Except.ok docs := by
  obtain ⟨i, hi, e0, he0⟩ := hfail
  have hvne : values ≠ [] := by
    intro h
    rw [h, pyChunks_nil] at hi
    simp at hi
  have hne : values.isEmpty = false := by simpa [List.isEmpty_iff] using hvne
  have hmem : Except.error e0 ∈ (List.range (pyChunks values).length).map
      (fun i => (fetch_chunk_with_retry (oracle i) maxRetries).1) :=
    he0 ▸ List.mem_map_of_mem _ (List.mem_range.mpr hi)
  obtain ⟨e1, he1mem, hg⟩ := gatherChunks_error _ ⟨e0, hmem⟩
  obtain ⟨j, hj, hje⟩ := List.mem_map.mp he1mem
  have hq : (query_documents_in oracle maxRetries values).result =
      gatherChunks ((List.range (pyChunks values).length).map
        (fun i => (fetch_chunk_with_retry (oracle i) maxRetries).1)) := by
    simp only [query_documents_in, hne, Bool.false_eq_true, if_false, List.map_map]
    rfl
  refine ⟨j, List.mem_range.mp hj, e1, hje, ?_, ?_⟩
  · rw [hq, hg]
  · intro docs hcontra
    rw [hq, hg] at hcontra
    exact Except.noConfusion hcontra

/-- Witness for C3: a single chunk forever failing with InvalidArgument
makes the whole batched call fail with InvalidArgument; no document list is
returned. -/
theorem query_documents_in_total_failure_witness :
    (query_documents_in oracle3 3 ["a"]).result =
      Except.error StoreErr.invalidArgument ∧
    (query_documents_in oracle3 3 ["a"]).result ≠ Except.ok ([] : List Nat) := by
  obtain ⟨j, hj, e1, hje, hres, hnok⟩ :=
    query_documents_in_total_failure oracle3 3 ["a"]
      ⟨0, by decide, StoreErr.invalidArgument, rfl⟩
  have h3 : (Except.error e1 : Except StoreErr (List Nat)) =
      Except.error StoreErr.invalidArgument := hje.symm.trans rfl
  injection h3 with h4
  subst h4
  exact ⟨hres, hnok []⟩

/-- Witness for C7: eleven keys make two chunks (widths 10 and 1); with
every chunk succeeding, the call returns the two chunk results concatenated
in chunk order. -/
theorem query_documents_in_partition_witness :
    (pyChunks vals11).length = 2 ∧
    (pyChunks vals11).flatten = vals11 ∧
    (query_documents_in oracle7 3 vals11).result = Except.ok [0, 1] := by
  have h := query_documents_in_partition oracle7 3 vals11 docs7 (fun i _ => rfl)
  exact ⟨h.1, h.2.2.2.2.1, h.2.2.2.2.2⟩

/- ------------------------------------------------------------------ -/
/- Claim theorems for the ACL resolver                                 -/
/- ------------------------------------------------------------------ -/

/-- C1: the access set returned by `get_profile_with_acl` is, as a set, the
deduplicated union of the organization grant list and the profile's direct
grant list: it has no duplicates, and membership in it is exactly
membership in one of the two grant lists — hence order and duplicate
entries within either list are irrelevant. -/
theorem get_profile_with_acl_access_set (db : DB) (u : String)
    (p : ProfileDoc) (acl : List String)
    (h : get_profile_with_acl db u = Except.ok (p, acl)) :
    acl.Nodup ∧
    ∀ x : String, x ∈ acl ↔ x ∈ resolvedOrgGrants db p ∨ x ∈ p.series_acl := by
  unfold get_profile_with_acl at h
  cases hp : db.profiles u with
  | none => rw [hp] at h; exact Except.noConfusion h
  | some q =>
    rw [hp] at h
    simp only [Except.ok.injEq, Prod.mk.injEq] at h
    obtain ⟨hq, hacl⟩ := h
    subst hq
    subst hacl
    refine ⟨List.nodup_dedup _, fun x => ?_⟩
    rw [List.mem_dedup, List.mem_append]

/-- Witness for C1: profile p1 has direct grants s1, s2 and its organization
orgA grants s2, s3; the access set is exactly the three resources, s2 not
duplicated. -/
theorem get_profile_with_acl_access_set_witness :
    acl1.Nodup ∧
    ("s2" ∈ acl1 ↔ "s2" ∈ resolvedOrgGrants db1 prof1 ∨ "s2" ∈ prof1.series_acl) := by
  have h := get_profile_with_acl_access_set db1 "p1" prof1 acl1 (by rfl)
  exact ⟨h.1, h.2 "s2"⟩

/-- C5: `validate_serie_access` returns true exactly when the resource is a
member of the access set computed by `get_profile_with_acl`; an unknown
resource is not an error — absence simply yields false — and the call fails
only when `get_profile_with_acl` itself fails, with the same error. -/
theorem validate_serie_access_spec (db : DB) (pu su : String) :
    (∀ p acl, get_profile_with_acl db pu = Except.ok (p, acl) →
      (validate_serie_access db pu su = Except.ok true ↔ su ∈ acl) ∧
      (su ∉ acl → validate_serie_access db pu su = Except.ok false)) ∧
    (∀ e, get_profile_with_acl db pu = Except.error e →
      validate_serie_access db pu su = Except.error e) := by
  constructor
  · intro p acl hok
    have hv : validate_serie_access db pu su = Except.ok (acl.contains su) := by
      unfold validate_serie_access
      rw [hok]
    constructor
    · rw [hv]
      simp only [Except.ok.injEq]
      exact List.elem_iff
    · intro hnot
      cases hb : acl.contains su with
      | false => rw [hv, hb]
      | true => exact absurd (List.elem_iff.mp hb) hnot
  · intro e he
    unfold validate_serie_access
    rw [he]

/-- Witness for C5: resource zz is in no grant list of p1; the access check
returns false rather than failing. -/
theorem validate_serie_access_spec_witness :
    validate_serie_access db1 "p1" "zz" = Except.ok false := by
  have h := (validate_serie_access_spec db1 "p1" "zz").1 prof1 acl1 (by rfl)
  exact h.2 (by decide)

/-- C6: `get_profile_with_acl` fails exactly when the profile point-read
yields no document, and then with the profile-not-found error carrying the
requested uuid; when the profile exists the call succeeds, and in
particular a missing organization document is not an error — the org grant
list degrades to empty. -/
theorem get_profile_with_acl_failure_spec (db : DB) (u : String) :
    (get_profile_with_acl db u = Except.error u ↔ db.profiles u = none) ∧
    (∀ e, get_profile_with_acl db u = Except.error e →
      e = u ∧ db.profiles u = none) ∧
    (∀ p, db.profiles u = some p →
      ∃ acl, get_profile_with_acl db u = Except.ok (p, acl)) ∧
    (∀ p oid, db.profiles u = some p → resolvedOrgUuid p = some oid →
      db.orgs oid = none →
      resolvedOrgGrants db p = [] ∧
      get_profile_with_acl db u = Except.ok (p, p.series_acl.dedup)) := by
  cases hp : db.profiles u with
  | none =>
    have hget : get_profile_with_acl db u = Except.error u := by
      unfold get_profile_with_acl
      rw [hp]
    refine ⟨⟨fun _ => rfl, fun _ => hget⟩, ?_, ?_, ?_⟩
    · intro e he
      rw [hget] at he
      exact ⟨(Except.error.inj he).symm, rfl⟩
    · intro p hps
      exact Option.noConfusion hps
    · intro p oid hps _ _
      exact Option.noConfusion hps
  | some q =>
    have hget : get_profile_with_acl db u =
        Except.ok (q, (resolvedOrgGrants db q ++ q.series_acl).dedup) := by
      unfold get_profile_with_acl
      rw [hp]
    refine ⟨⟨fun h => ?_, fun h => ?_⟩, ?_, ?_, ?_⟩
    · rw [hget] at h
      exact Except.noConfusion h
    · exact Option.noConfusion h
    · intro e he
      rw [hget] at he
      exact Except.noConfusion he
    · intro p hps
      exact ⟨_, (Option.some.inj hps) ▸ hget⟩
    · intro p oid hps hoid horg
      have hpq : q = p := Option.some.inj hps
      subst hpq
      have hgr : resolvedOrgGrants db q = [] := by
        have hne : oid ≠ "" := resolvedOrgUuid_ne_blank q oid hoid
        simp only [resolvedOrgGrants, hoid]
        rw [if_neg hne, horg]
      rw [hgr, List.nil_append] at hget
      exact ⟨hgr, hget⟩

/-- Witness for C6: profile p2 names organization "ghost", which has no
document in db2; the resolution succeeds with the empty org grant list, and
an unknown profile uuid fails with the profile-not-found error. -/
theorem get_profile_with_acl_failure_spec_witness :
    resolvedOrgGrants db2 prof2 = [] ∧
    get_profile_with_acl db2 "p2" = Except.ok (prof2, prof2.series_acl.dedup) ∧
    get_profile_with_acl db2 "zz" = Except.error "zz" := by
  have h4 := (get_profile_with_acl_failure_spec db2 "p2").2.2.2 prof2 "ghost"
    (by rfl) (by rfl) (by rfl)
  have h1 := (get_profile_with_acl_failure_spec db2 "zz").1.mpr (by rfl)
  exact ⟨h4.1, h4.2, h1⟩

/-- C10: the organization identifier is extracted with a fixed precedence —
`org_uuid` is normalized first, and only when that yields nothing is `orgs`
normalized as a fallback; when both yield nothing the organization read is
skipped entirely: the org grant list is empty whatever the org collection
contains, and the resolution returns the deduplicated direct grants. -/
theorem resolvedOrgUuid_precedence (p : ProfileDoc) :
    (∀ s, _first_non_empty_to_str p.org_uuid = some s →
      resolvedOrgUuid p = some s) ∧
    (_first_non_empty_to_str p.org_uuid = none →
      resolvedOrgUuid p = _first_non_empty_to_str p.orgs) ∧
    (_first_non_empty_to_str p.org_uuid = none →
      _first_non_empty_to_str p.orgs = none →
      resolvedOrgUuid p = none ∧
      (∀ db : DB, resolvedOrgGrants db p = []) ∧
      (∀ (db : DB) (u : String), db.profiles u = some p →
        get_profile_with_acl db u = Except.ok (p, p.series_acl.dedup))) := by
  refine ⟨?_, ?_, ?_⟩
  · intro s h
    have hs : s ≠ "" := first_non_empty_ne_blank p.org_uuid s h
    simp only [resolvedOrgUuid, h, pyTruthyOptStr]
    simp [hs]
  · intro h
    simp only [resolvedOrgUuid, h, pyTruthyOptStr]
    simp
  · intro h1 h2
    have hnone : resolvedOrgUuid p = none := by
      simp only [resolvedOrgUuid, h1, pyTruthyOptStr]
      simp [h2]
    have hgr : ∀ db : DB, resolvedOrgGrants db p = [] := by
      intro db
      unfold resolvedOrgGrants
      rw [hnone]
    refine ⟨hnone, hgr, ?_⟩
    intro db u hpu
    simp only [get_profile_with_acl, hpu]
    rw [hgr db, List.nil_append]

/-- Witness for C10: profile p3 has `org_uuid = None` and `orgs = []`; no
identifier is extracted, the org grant list is empty on any store, and the
resolution returns p3's deduplicated direct grants. -/
theorem resolvedOrgUuid_precedence_witness :
    resolvedOrgUuid prof3 = none ∧
    resolvedOrgGrants db3 prof3 = [] ∧
    get_profile_with_acl db3 "p3" = Except.ok (prof3, prof3.series_acl.dedup) := by
  have h := (resolvedOrgUuid_precedence prof3).2.2 (by rfl) (by rfl)
  exact ⟨h.1, h.2.1 db3, h.2.2 db3 "p3" (by rfl)⟩

/- ------------------------------------------------------------------ -/
/- Claim theorems for the org-identifier normalization (C4)            -/
/- ------------------------------------------------------------------ -/

/-- C4 counterexample: for the collection `[0, "orgA"]` the first element
whose trimmed stringification is non-empty is `0` (with string form "0"),
yet the source skips it — `0` is falsy — and returns "orgA"; the
normalization rule as the claim states it disagrees with the code here. -/
theorem first_non_empty_to_str_cex :
    _first_non_empty_to_str cexVal = some "orgA" ∧
    claimFirstNonEmpty cexVal = some "0" ∧
    pyStrip "0" = "0" ∧
    _first_non_empty_to_str cexVal ≠ claimFirstNonEmpty cexVal := by
  refine ⟨rfl, rfl, rfl, ?_⟩
  decide

/-- C4 amended: the normalization returns, for a collection, the first
element that is non-None and — if a string — trims to non-empty, or — if a
non-string — is truthy and has a trimmed stringification that is non-empty;
falsy non-string elements are skipped without being stringified.  Single
strings and absent/empty inputs behave as the claim states. -/
theorem first_non_empty_to_str_amended (v : PyVal) :
    _first_non_empty_to_str v = amendedFirstNonEmpty v := by
  cases v with
  | pyNone => rfl
  | pyStr s => rfl
  | pyOther truthy r => rfl
  | pyColl items =>
    show firstNonEmptyItem items = items.findSome? amendedItemToStr
    induction items with
    | nil => rfl
    | cons x rest ih =>
      cases x with
      | pyNone =>
        simp only [firstNonEmptyItem, List.findSome?_cons, amendedItemToStr]
        exact ih
      | pyStr s =>
        by_cases hs : pyStrip s = "" <;>
          simp [firstNonEmptyItem, amendedItemToStr, hs, List.findSome?_cons, ih]
      | pyOther truthy r =>
        cases truthy <;> by_cases hr : pyStrip r = "" <;>
          simp [firstNonEmptyItem, amendedItemToStr, hr, List.findSome?_cons, ih]

end PliaShared
